import Mathlib

/-!
Shallow embedding of the quiz router of nerolusi-prisma
(src/server/api/routers/quiz.ts) together with a relational-store model of
the Prisma tables it queries. Timestamps are modelled as integers, the
current instant is passed explicitly as a parameter called now, and the
fallible handlers return Option or Except values.
-/

set_option maxHeartbeats 1000000
set_option maxRecDepth 4000

namespace Quiz

/-- An answer-choice row of the Answer table: belongs to one question and
carries the choice text. -/
structure Answer where
  id : Nat
  questionId : Nat
  index : Nat
  content : String
deriving DecidableEq

/-- A question row of the Question table, with its answer choices joined in
(the Prisma relation Question to Answer is one-to-many). -/
structure Question where
  id : Nat
  subtestId : Nat
  index : Nat
  content : String
  imageUrl : Option String
  qtype : String
  score : Int
  explanation : Option String
  correctAnswerChoice : Option Nat
  answers : List Answer
deriving DecidableEq

/-- A subtest row: belongs to one package. -/
structure Subtest where
  id : Nat
  packageId : Nat
  stype : String
  duration : Int
deriving DecidableEq

/-- A package row with its submission window. -/
structure Package where
  id : Nat
  name : String
  ptype : String
  classId : Option Nat
  TOstart : Int
  TOend : Int
deriving DecidableEq

/-- A quiz-session row: one attempt of one user at one subtest. -/
structure QuizSession where
  id : Nat
  userId : String
  packageId : Nat
  subtestId : Nat
  duration : Int
  endTime : Int
deriving DecidableEq

/-- A user-answer row: one stored response to one question in one session. -/
structure UserAnswer where
  userId : String
  packageId : Nat
  quizSessionId : Nat
  questionId : Nat
  answerChoice : Option Nat
  essayAnswer : Option String
deriving DecidableEq

/-- An announcement row. -/
structure Announcement where
  id : Nat
  title : Option String
  content : Option String
  url : Option String
deriving DecidableEq

/-- The relational store the router reads and writes. -/
structure DB where
  packages : List Package
  subtests : List Subtest
  questions : List Question
  quizSessions : List QuizSession
  userAnswers : List UserAnswer
  announcements : List Announcement
deriving DecidableEq

/-! ## Scoring service: getPackageWithSubtest -/

/-- The normalisation both sides of the essay comparison go through in the
source: trim() followed by toLowerCase(), modelled over the character
sequence of the string (leading and trailing whitespace dropped, every
character lowercased). -/
def essayNorm (s : String) : String :=
  ⟨((s.data.dropWhile Char.isWhitespace).reverse.dropWhile
      Char.isWhitespace).reverse.map Char.toLower⟩

/-- The shape of one answer row of the nested Prisma select inside
getPackageWithSubtest: only the content column is selected. -/
structure FetchedAnswer where
  content : String
deriving DecidableEq

/-- The question columns selected for each stored user answer inside
getPackageWithSubtest. -/
structure FetchedQuestion where
  correctAnswerChoice : Option Nat
  score : Int
  answers : List FetchedAnswer
deriving DecidableEq

/-- One stored user answer as fetched by getPackageWithSubtest, joined to
its question. -/
structure FetchedUserAnswer where
  question : FetchedQuestion
  answerChoice : Option Nat
  essayAnswer : Option String
deriving DecidableEq

/-- One quiz session as fetched by getPackageWithSubtest: its endTime, the
TOend of the package the session belongs to, and the stored answers of the
acting user for the requested package. -/
structure FetchedSession where
  endTime : Int
  TOend : Int
  userAnswers : List FetchedUserAnswer
deriving DecidableEq

/-- One subtest as fetched by getPackageWithSubtest, with the sessions of
the acting user (the Prisma include yields a list; the code uses index 0). -/
structure FetchedSubtest where
  id : Nat
  packageId : Nat
  stype : String
  duration : Int
  quizSession : List FetchedSession
deriving DecidableEq

/-- The package record getPackageWithSubtest works on after the Prisma
query: package scalars (id and classId are omitted by the query) plus the
fetched subtests. -/
structure PackageData where
  name : String
  ptype : String
  TOstart : Int
  TOend : Int
  subtests : List FetchedSubtest
deriving DecidableEq

/-- The per-answer contribution of the reduce at lines 102-117 of quiz.ts:
if correctAnswerChoice is non-null, the score of the question when
answerChoice strictly equals it, else 0; otherwise, if essayAnswer is
non-null, the score when the trimmed lowercased essayAnswer equals the
trimmed lowercased content of the first listed answer choice (the optional
chain makes the comparison false when there is no first choice); else 0. -/
def answerScore (a : FetchedUserAnswer) : Int :=
  match a.question.correctAnswerChoice with
  | some c => if a.answerChoice = some c then a.question.score else 0
  | none =>
    match a.essayAnswer with
    | some e =>
      match a.question.answers.head? with
      | some first =>
        if essayNorm e = essayNorm first.content then a.question.score else 0
      | none => 0
    | none => 0

/-- The reduce over the stored answers of a session, accumulator starting
at 0. -/
def subtestScore (l : List FetchedUserAnswer) : Int :=
  l.foldl (fun total a => total + answerScore a) 0

/-- The object getPackageWithSubtest returns for one subtest: the subtest
spread together with a quizSession field holding the endTime (or null) and
a score field (or null). -/
structure ScoredSubtest where
  subtest : FetchedSubtest
  quizSession : Option Int
  score : Option Int
deriving DecidableEq

/-- Lines 84-126 of quiz.ts for a single subtest: no session gives null
and null; a session whose package TOend is still in the future gives the
endTime and a null score; otherwise the computed score. -/
def scoreSubtest (now : Int) (st : FetchedSubtest) : ScoredSubtest :=
  match st.quizSession.head? with
  | none => { subtest := st, quizSession := none, score := none }
  | some qs =>
    if qs.TOend > now then
      { subtest := st, quizSession := some qs.endTime, score := none }
    else
      { subtest := st, quizSession := some qs.endTime,
        score := some (subtestScore qs.userAnswers) }

/-- The full result of getPackageWithSubtest: the package scalars, the
accumulated totalScore and the scored subtests. -/
structure PackageResult where
  name : String
  ptype : String
  TOstart : Int
  TOend : Int
  totalScore : Int
  subtests : List ScoredSubtest
deriving DecidableEq

/-- Lines 82-132 of quiz.ts: map every subtest through the scoring step and
accumulate totalScore, which the mutation increments exactly in the branch
that computes a score, so it equals the sum of the scores of the scored
subtests. -/
def scorePackageData (pd : PackageData) (now : Int) : PackageResult :=
  let scoredSubtests := pd.subtests.map (scoreSubtest now)
  { name := pd.name, ptype := pd.ptype, TOstart := pd.TOstart,
    TOend := pd.TOend,
    totalScore := (scoredSubtests.map (fun r => r.score.getD 0)).sum,
    subtests := scoredSubtests }

/-- The Prisma query of getPackageWithSubtest (lines 33-76): find the
package by id, join its subtests, for each subtest the sessions of the
acting user, for each session its package TOend and the stored answers
filtered to the requested package, each joined to its question. The
required relations (session to package, user answer to question) always
resolve on foreign-key-consistent data; the joins are written with
filterMap accordingly. -/
def fetchPackageData (db : DB) (id : Nat) (userId : String) :
    Option PackageData :=
  (db.packages.find? (fun p => p.id == id)).map (fun p =>
    { name := p.name, ptype := p.ptype, TOstart := p.TOstart,
      TOend := p.TOend,
      subtests := (db.subtests.filter (fun st => st.packageId == p.id)).map
        (fun st =>
          { id := st.id, packageId := st.packageId, stype := st.stype,
            duration := st.duration,
            quizSession := (db.quizSessions.filter
                (fun s => s.userId == userId && s.subtestId == st.id)).filterMap
              (fun s =>
                (db.packages.find? (fun pk => pk.id == s.packageId)).map
                  (fun pk =>
                    { endTime := s.endTime, TOend := pk.TOend,
                      userAnswers := (db.userAnswers.filter
                          (fun ua => ua.quizSessionId == s.id &&
                            ua.packageId == id)).filterMap
                        (fun ua =>
                          (db.questions.find?
                              (fun q => q.id == ua.questionId)).map
                            (fun q =>
                              { question :=
                                  { correctAnswerChoice :=
                                      q.correctAnswerChoice,
                                    score := q.score,
                                    answers := q.answers.map
                                      (fun an => { content := an.content }) },
                                answerChoice := ua.answerChoice,
                                essayAnswer := ua.essayAnswer })) })) }) })

/-- The whole getPackageWithSubtest handler: a missing package is thrown as
an error (line 79 of quiz.ts); otherwise the scored package is returned. -/
def getPackageWithSubtest (db : DB) (id : Nat) (userId : String)
    (now : Int) : Except String PackageResult :=
  match fetchPackageData db id userId with
  | none => .error "Package not found"
  | some pd => .ok (scorePackageData pd now)

/-! ## Question-delivery service: getQuestionsBySubtest -/

/-- Insertion of a question into a list kept ascending by index. -/
def insertByIndex (q : Question) : List Question → List Question
  | [] => [q]
  | r :: rs =>
    if q.index ≤ r.index then q :: r :: rs else r :: insertByIndex q rs

/-- The orderBy index asc of the Prisma findMany, modelled as an insertion
sort on the index column. -/
def sortByIndex (l : List Question) : List Question :=
  l.foldr insertByIndex []

/-- The question rows the two findMany calls of getQuestionsBySubtest
return: the questions of the subtest, ordered by index ascending, each
including its answer choices. -/
def subtestQuestions (db : DB) (subtestId : Nat) : List Question :=
  sortByIndex (db.questions.filter (fun q => q.subtestId == subtestId))

/-- The object shape getQuestionsBySubtest returns per question: the
question fields where correctAnswerChoice, explanation and score may have
been overwritten to null. -/
structure DeliveredQuestion where
  id : Nat
  subtestId : Nat
  index : Nat
  content : String
  imageUrl : Option String
  qtype : String
  score : Option Int
  explanation : Option String
  correctAnswerChoice : Option Nat
  answers : List Answer
deriving DecidableEq

/-- The spread of lines 198-203 of quiz.ts: the question with
correctAnswerChoice, explanation and score overwritten to null. -/
def deliverRedacted (q : Question) : DeliveredQuestion :=
  { id := q.id, subtestId := q.subtestId, index := q.index,
    content := q.content, imageUrl := q.imageUrl, qtype := q.qtype,
    score := none, explanation := none, correctAnswerChoice := none,
    answers := q.answers }

/-- The untouched question row as returned by the closed-window branch
(lines 206-212 of quiz.ts). -/
def deliverFull (q : Question) : DeliveredQuestion :=
  { id := q.id, subtestId := q.subtestId, index := q.index,
    content := q.content, imageUrl := q.imageUrl, qtype := q.qtype,
    score := some q.score, explanation := q.explanation,
    correctAnswerChoice := q.correctAnswerChoice, answers := q.answers }

/-- The three values the getQuestionsBySubtest handler body can produce:
the explicit null of the no-session branch, a question list, or the
implicit undefined when no branch is taken. -/
inductive QuestionsResult where
  | nullResult : QuestionsResult
  | questions : List DeliveredQuestion → QuestionsResult
  | undefinedResult : QuestionsResult
deriving DecidableEq

/-- The user whose session the handler looks up (lines 178-181 of
quiz.ts): an admin may target the user named in the input, everyone else
is scoped to themselves. -/
def effectiveUserId (role : String) (inputUserId : Option String)
    (actingUserId : String) : String :=
  if role = "admin" then inputUserId.getD actingUserId else actingUserId

/-- The findFirst of lines 175-184: the first session row matching the
subtest and the effective user. -/
def findFirstSession (db : DB) (subtestId : Nat) (userId : String) :
    Option QuizSession :=
  db.quizSessions.find? (fun s =>
    s.subtestId == subtestId && s.userId == userId)

/-- The TOend of the package a session belongs to (the select
package TOend join); none only on foreign-key-broken data. -/
def sessionTOend (db : DB) (s : QuizSession) : Option Int :=
  (db.packages.find? (fun p => p.id == s.packageId)).map Package.TOend

/-- Lines 172-214 of quiz.ts. The outer Option is none only when the
package relation of the found session cannot be resolved, which cannot
happen on foreign-key-consistent data; every JS-visible outcome is a some:
null when no session exists, the redacted questions while TOend lies in
the future, the full questions once TOend lies in the past, and undefined
when TOend equals now, since then neither strict comparison holds. -/
def getQuestionsBySubtest (db : DB) (subtestId : Nat)
    (inputUserId : Option String) (actingUserId : String) (role : String)
    (now : Int) : Option QuestionsResult :=
  match findFirstSession db subtestId
      (effectiveUserId role inputUserId actingUserId) with
  | none => some .nullResult
  | some s =>
    (sessionTOend db s).map (fun toend =>
      if toend > now then
        .questions ((subtestQuestions db subtestId).map deliverRedacted)
      else if toend < now then
        .questions ((subtestQuestions db subtestId).map deliverFull)
      else
        .undefinedResult)

/-! ## Session service: getSession, getSessionDetails -/

/-- Lines 135-149 of quiz.ts: the first session of the given user for the
given subtest, none when absent. -/
def getSession (db : DB) (userId : String) (subtestId : Nat) :
    Option QuizSession :=
  db.quizSessions.find? (fun s =>
    s.userId == userId && s.subtestId == subtestId)

/-- The record getSessionDetails assembles: the session row with its
subtest, the TOend of its package, and the user answers of the session. -/
structure SessionDetails where
  session : QuizSession
  subtest : Option Subtest
  TOend : Option Int
  userAnswers : List UserAnswer
deriving DecidableEq

/-- Lines 216-239 of quiz.ts: load the session by id; return null when it
does not exist or when the requester is neither the owner nor an admin;
otherwise return the joined details. -/
def getSessionDetails (db : DB) (sessionId : Nat) (requesterId : String)
    (requesterRole : String) : Option SessionDetails :=
  match db.quizSessions.find? (fun s => s.id == sessionId) with
  | none => none
  | some s =>
    if s.userId ≠ requesterId ∧ requesterRole ≠ "admin" then none
    else
      some { session := s,
             subtest := db.subtests.find? (fun t => t.id == s.subtestId),
             TOend := (db.packages.find?
               (fun p => p.id == s.packageId)).map Package.TOend,
             userAnswers := db.userAnswers.filter
               (fun ua => ua.quizSessionId == sessionId) }

/-! ## Answer-submission service: saveAnswer -/

/-- The composite unique key of the UserAnswer table the upsert targets. -/
def keyMatch (userId : String) (quizSessionId questionId : Nat)
    (r : UserAnswer) : Bool :=
  r.userId == userId && r.quizSessionId == quizSessionId &&
    r.questionId == questionId

/-- The rows of the store holding the given (userId, quizSessionId,
questionId) key. -/
def rowsForKey (db : DB) (userId : String) (quizSessionId questionId : Nat) :
    List UserAnswer :=
  db.userAnswers.filter (keyMatch userId quizSessionId questionId)

/-- Lines 241-289 of quiz.ts: reject the call before any store access when
both answerChoice and essayAnswer are null; otherwise upsert on the
composite key, updating only answerChoice and essayAnswer of an existing
row and inserting a fresh row with every field otherwise. Returns the
updated store together with the written row. -/
def saveAnswer (db : DB) (answerChoice : Option Nat)
    (essayAnswer : Option String) (questionId : Nat) (userId : String)
    (packageId : Nat) (quizSessionId : Nat) :
    Except String (DB × UserAnswer) :=
  if answerChoice.isNone && essayAnswer.isNone then
    .error "Either answerChoice or essayAnswer must be provided."
  else
    match db.userAnswers.find? (keyMatch userId quizSessionId questionId) with
    | some existing =>
      let updated : UserAnswer :=
        { existing with answerChoice := answerChoice,
                        essayAnswer := essayAnswer }
      .ok ({ db with userAnswers := db.userAnswers.map (fun r =>
               if keyMatch userId quizSessionId questionId r then
                 { r with answerChoice := answerChoice,
                          essayAnswer := essayAnswer }
               else r) },
           updated)
    | none =>
      let created : UserAnswer :=
        { userId := userId, packageId := packageId,
          quizSessionId := quizSessionId, questionId := questionId,
          answerChoice := answerChoice, essayAnswer := essayAnswer }
      .ok ({ db with userAnswers := db.userAnswers ++ [created] }, created)

/-- The store after a saveAnswer call: unchanged when the call errors. -/
def runSaveAnswer (db : DB) (answerChoice : Option Nat)
    (essayAnswer : Option String) (questionId : Nat) (userId : String)
    (packageId : Nat) (quizSessionId : Nat) : DB :=
  match saveAnswer db answerChoice essayAnswer questionId userId packageId
      quizSessionId with
  | .error _ => db
  | .ok (db2, _) => db2

/-! ## Announcement singleton: upsertAnnouncement -/

/-- Lines 14-28 of quiz.ts. The where clause targets id 1: an existing
row with id 1 is updated in place, otherwise a row is created. Modelled
from the spec: the Prisma schema defining the Announcement table is not
part of the analysed sources; the spec fixes the singleton id to 1, so the
created row is modelled as receiving id 1. -/
def upsertAnnouncement (db : DB) (title content url : Option String) : DB :=
  if db.announcements.any (fun a => a.id == 1) then
    { db with announcements := db.announcements.map (fun a =>
        if a.id == 1 then
          { a with title := title, content := content, url := url }
        else a) }
  else
    { db with announcements := db.announcements ++
        [{ id := 1, title := title, content := content, url := url }] }

/-- A sequence of upsertAnnouncement calls applied in order. -/
def applyAnnouncementCalls (db : DB)
    (calls : List (Option String × Option String × Option String)) : DB :=
  calls.foldl (fun d c => upsertAnnouncement d c.1 c.2.1 c.2.2) db

/-! ## Helper lemmas -/

theorem foldl_add_answerScore (l : List FetchedUserAnswer) (init : Int) :
    l.foldl (fun total a => total + answerScore a) init =
      init + (l.map answerScore).sum := by
  induction l generalizing init with
  | nil => simp
  | cons a as ih =>
    simp only [List.foldl_cons, List.map_cons, List.sum_cons, ih]
    ring

theorem subtestScore_eq_sum (l : List FetchedUserAnswer) :
    subtestScore l = (l.map answerScore).sum := by
  simpa using foldl_add_answerScore l 0

theorem find?_eq_head?_filter {α : Type} (p : α → Bool) (l : List α) :
    l.find? p = (l.filter p).head? := by
  induction l with
  | nil => rfl
  | cons a as ih =>
    by_cases h : p a
    · rw [List.find?_cons_of_pos _ h, List.filter_cons_of_pos h]
      rfl
    · rw [List.find?_cons_of_neg _ h, List.filter_cons_of_neg h, ih]

theorem filter_map_update {α : Type} (p : α → Bool) (g : α → α)
    (hg : ∀ r, p r = true → p (g r) = true) (l : List α) :
    (l.map (fun r => if p r then g r else r)).filter p =
      (l.filter p).map g := by
  induction l with
  | nil => rfl
  | cons a as ih =>
    by_cases h : p a
    · simp [List.map_cons, List.filter_cons, h, hg a h, ih]
    · simp [List.map_cons, List.filter_cons, h, ih]

theorem filter_not_map_update {α : Type} (p : α → Bool) (g : α → α)
    (hg : ∀ r, p r = true → p (g r) = true) (l : List α) :
    (l.map (fun r => if p r then g r else r)).filter (fun r => !p r) =
      l.filter (fun r => !p r) := by
  induction l with
  | nil => rfl
  | cons a as ih =>
    by_cases h : p a
    · simp [List.map_cons, List.filter_cons, h, hg a h, ih]
    · simp [List.map_cons, List.filter_cons, h, ih]

theorem mem_insertByIndex (q x : Question) (l : List Question) :
    x ∈ insertByIndex q l ↔ x = q ∨ x ∈ l := by
  induction l with
  | nil => simp [insertByIndex]
  | cons r rs ih =>
    by_cases h : q.index ≤ r.index
    · simp [insertByIndex, h]
    · simp [insertByIndex, h, ih]
      tauto

theorem pairwise_insertByIndex (q : Question) (l : List Question)
    (hl : l.Pairwise (fun a b => a.index ≤ b.index)) :
    (insertByIndex q l).Pairwise (fun a b => a.index ≤ b.index) := by
  induction l with
  | nil => simp [insertByIndex]
  | cons r rs ih =>
    rcases List.pairwise_cons.mp hl with ⟨hr, hrs⟩
    by_cases h : q.index ≤ r.index
    · rw [insertByIndex, if_pos h]
      refine List.pairwise_cons.mpr ⟨?_, hl⟩
      intro x hx
      rcases List.mem_cons.mp hx with rfl | hx
      · exact h
      · exact le_trans h (hr x hx)
    · rw [insertByIndex, if_neg h]
      refine List.pairwise_cons.mpr ⟨?_, ih hrs⟩
      intro x hx
      rcases (mem_insertByIndex q x rs).mp hx with rfl | hx
      · omega
      · exact hr x hx

theorem sortByIndex_pairwise (l : List Question) :
    (sortByIndex l).Pairwise (fun a b => a.index ≤ b.index) := by
  induction l with
  | nil => simp [sortByIndex]
  | cons a as ih => exact pairwise_insertByIndex a _ ih

theorem subtestQuestions_pairwise (db : DB) (subtestId : Nat) :
    (subtestQuestions db subtestId).Pairwise
      (fun a b => a.index ≤ b.index) :=
  sortByIndex_pairwise _

theorem upsertAnnouncement_preserves (db : DB)
    (title content url : Option String)
    (hids : ∀ a ∈ db.announcements, a.id = 1)
    (hlen : db.announcements.length ≤ 1) :
    (∀ a ∈ (upsertAnnouncement db title content url).announcements,
      a.id = 1) ∧
    (upsertAnnouncement db title content url).announcements.length ≤ 1 := by
  by_cases h : db.announcements.any (fun a => a.id == 1)
  · rw [upsertAnnouncement, if_pos h]
    constructor
    · intro a ha
      rcases List.mem_map.mp ha with ⟨b, hb, hba⟩
      by_cases hb1 : b.id == 1
      · rw [if_pos hb1] at hba
        subst hba
        exact hids b hb
      · rw [if_neg hb1] at hba
        subst hba
        exact hids b hb
    · simpa using hlen
  · rw [upsertAnnouncement, if_neg h]
    have hempty : db.announcements = [] := by
      cases hdb : db.announcements with
      | nil => rfl
      | cons a as =>
        exfalso
        apply h
        rw [hdb]
        apply List.any_eq_true.mpr
        refine ⟨a, List.mem_cons_self a as, ?_⟩
        have := hids a (by rw [hdb]; exact List.mem_cons_self a as)
        simp [this]
    constructor
    · intro a ha
      rw [hempty] at ha
      simp at ha
      simp [ha]
    · simp [hempty]

theorem eq_singleton_of_length_le_one {α : Type} (l : List α) (x : α)
    (hlen : l.length ≤ 1) (hhead : l.head? = some x) : l = [x] := by
  cases l with
  | nil => cases hhead
  | cons a as =>
    cases as with
    | nil =>
      simp at hhead
      simp [hhead]
    | cons b bs => simp at hlen

/-! ## Witness data -/

/-- A store with no rows at all. -/
def emptyDB : DB :=
  { packages := [], subtests := [], questions := [], quizSessions := [],
    userAnswers := [], announcements := [] }

/-- A package whose window closes at instant 50. -/
def wPackage : Package :=
  { id := 1, name := "TO-1", ptype := "tryout", classId := none,
    TOstart := 0, TOend := 50 }

/-- A session of user u1 on subtest 1 of the package above. -/
def wSession : QuizSession :=
  { id := 1, userId := "u1", packageId := 1, subtestId := 1,
    duration := 30, endTime := 40 }

/-- A store holding the package and the session above. -/
def wDB : DB :=
  { packages := [wPackage], subtests := [], questions := [],
    quizSessions := [wSession], userAnswers := [], announcements := [] }

/-! ## Claim theorems -/

/-- C3: saveAnswer raises an error whenever both answerChoice and
essayAnswer are null, and the store is left unchanged on this failure, so
no UserAnswer row is created or modified. -/
theorem c3_saveAnswer_rejects_empty (db : DB) (questionId : Nat)
    (userId : String) (packageId quizSessionId : Nat) :
    saveAnswer db none none questionId userId packageId quizSessionId =
      .error "Either answerChoice or essayAnswer must be provided." ∧
    runSaveAnswer db none none questionId userId packageId quizSessionId =
      db := by
  exact ⟨rfl, rfl⟩

/-- C5: in getQuestionsBySubtest the two window branches are strict
comparisons in opposite directions, so when a session exists and the
TOend of its package equals the current instant neither branch is taken
and the handler returns undefined. -/
theorem c5_tie_returns_undefined (db : DB) (subtestId : Nat)
    (inputUserId : Option String) (actingUserId role : String) (now : Int)
    (s : QuizSession)
    (hs : findFirstSession db subtestId
      (effectiveUserId role inputUserId actingUserId) = some s)
    (ht : sessionTOend db s = some now) :
    getQuestionsBySubtest db subtestId inputUserId actingUserId role now =
      some .undefinedResult := by
  simp [getQuestionsBySubtest, hs, ht]

/-- C5 witness: a concrete store where the package window ends exactly at
the current instant. -/
theorem c5_tie_witness :
    findFirstSession wDB 1 (effectiveUserId "user" none "u1") =
      some wSession ∧
    sessionTOend wDB wSession = some 50 ∧
    getQuestionsBySubtest wDB 1 none "u1" "user" 50 =
      some .undefinedResult :=
  ⟨by decide, by decide,
    c5_tie_returns_undefined wDB 1 none "u1" "user" 50 wSession
      (by decide) (by decide)⟩

/-- C6: getSessionDetails returns null whenever no session with the
requested id is owned by the requester or readable through administrator
privilege; a session of a different user read by a non-admin requester
yields none, exactly as when the session does not exist. -/
theorem c6_sessionDetails_access (db : DB) (sessionId : Nat)
    (requesterId requesterRole : String)
    (hnoauth : ∀ s : QuizSession,
      db.quizSessions.find? (fun t => t.id == sessionId) = some s →
      s.userId ≠ requesterId ∧ requesterRole ≠ "admin") :
    getSessionDetails db sessionId requesterId requesterRole = none := by
  rw [getSessionDetails]
  cases hfind : db.quizSessions.find? (fun t => t.id == sessionId) with
  | none => rfl
  | some s =>
    have h := hnoauth s hfind
    simp [h.1, h.2]

/-- C6 witness: a non-admin requester asking for the session of another
user gets none. -/
theorem c6_sessionDetails_witness :
    (∀ s : QuizSession,
      wDB.quizSessions.find? (fun t => t.id == 1) = some s →
      s.userId ≠ "u2" ∧ "user" ≠ "admin") ∧
    getSessionDetails wDB 1 "u2" "user" = none :=
  ⟨by decide, c6_sessionDetails_access wDB 1 "u2" "user" (by decide)⟩

/-- C7 counterexample: on the empty store, getPackageWithSubtest for
package id 1 throws the error Package not found instead of returning an
absent result, refuting the claim that every not-found outcome of the quiz
RPC surface is a null or absent result. -/
theorem c7_counterexample :
    getPackageWithSubtest emptyDB 1 "u1" 0 = .error "Package not found" ∧
    ∀ r : PackageResult, getPackageWithSubtest emptyDB 1 "u1" 0 ≠ .ok r := by
  refine ⟨rfl, ?_⟩
  intro r h
  rw [show getPackageWithSubtest emptyDB 1 "u1" 0 =
    .error "Package not found" from rfl] at h
  cases h

/-- C7 amended: getSession, getSessionDetails and getQuestionsBySubtest
return a null result when the target row is absent, while
getPackageWithSubtest alone raises the client-visible error Package not
found for a nonexistent package id. -/
theorem c7_amended_notfound (db : DB) (id subtestId sessionId : Nat)
    (userId requesterId actingUserId role : String)
    (inputUserId : Option String) (now : Int)
    (hpkg : db.packages.find? (fun p => p.id == id) = none)
    (hsess : db.quizSessions.find? (fun s =>
      s.userId == userId && s.subtestId == subtestId) = none)
    (hdet : db.quizSessions.find? (fun s => s.id == sessionId) = none)
    (hq : findFirstSession db subtestId
      (effectiveUserId role inputUserId actingUserId) = none) :
    getPackageWithSubtest db id userId now = .error "Package not found" ∧
    getSession db userId subtestId = none ∧
    getSessionDetails db sessionId requesterId role = none ∧
    getQuestionsBySubtest db subtestId inputUserId actingUserId role now =
      some .nullResult := by
  refine ⟨?_, ?_, ?_, ?_⟩
  · simp [getPackageWithSubtest, fetchPackageData, hpkg]
  · exact hsess
  · simp [getSessionDetails, hdet]
  · simp [getQuestionsBySubtest, hq]

/-- C7 amended witness: every lookup on the empty store. -/
theorem c7_amended_witness :
    emptyDB.packages.find? (fun p => p.id == 1) = none ∧
    emptyDB.quizSessions.find? (fun s =>
      s.userId == "u1" && s.subtestId == 1) = none ∧
    emptyDB.quizSessions.find? (fun s => s.id == 1) = none ∧
    findFirstSession emptyDB 1 (effectiveUserId "user" none "u1") = none ∧
    getPackageWithSubtest emptyDB 1 "u1" 0 = .error "Package not found" ∧
    getSession emptyDB "u1" 1 = none ∧
    getSessionDetails emptyDB 1 "u2" "user" = none ∧
    getQuestionsBySubtest emptyDB 1 none "u1" "user" 0 =
      some .nullResult := by
  have h := c7_amended_notfound emptyDB 1 1 1 "u1" "u2" "u1" "user" none 0
    (by decide) (by decide) (by decide) (by decide)
  exact ⟨by decide, by decide, by decide, by decide,
    h.1, h.2.1, h.2.2.1, h.2.2.2⟩

/-- C2: with a session present, getQuestionsBySubtest redacts
correctAnswerChoice, explanation and score to null while the TOend of the
package lies in the future, returns the stored values unmodified once it
lies in the past, and in both branches delivers the questions of the
subtest ordered by index ascending with their answer choices included. -/
theorem c2_questions_redaction (db : DB) (subtestId : Nat)
    (inputUserId : Option String) (actingUserId role : String) (now : Int)
    (s : QuizSession) (toend : Int)
    (hs : findFirstSession db subtestId
      (effectiveUserId role inputUserId actingUserId) = some s)
    (ht : sessionTOend db s = some toend) :
    (toend > now →
      getQuestionsBySubtest db subtestId inputUserId actingUserId role
          now =
        some (.questions
          ((subtestQuestions db subtestId).map deliverRedacted)) ∧
      ∀ q ∈ (subtestQuestions db subtestId).map deliverRedacted,
        q.correctAnswerChoice = none ∧ q.explanation = none ∧
          q.score = none) ∧
    (toend < now →
      getQuestionsBySubtest db subtestId inputUserId actingUserId role
          now =
        some (.questions
          ((subtestQuestions db subtestId).map deliverFull))) ∧
    (∀ q : Question,
      (deliverFull q).correctAnswerChoice = q.correctAnswerChoice ∧
      (deliverFull q).explanation = q.explanation ∧
      (deliverFull q).score = some q.score ∧
      (deliverFull q).answers = q.answers ∧
      (deliverFull q).index = q.index ∧
      (deliverRedacted q).answers = q.answers ∧
      (deliverRedacted q).index = q.index) ∧
    (subtestQuestions db subtestId).Pairwise
      (fun a b => a.index ≤ b.index) := by
  refine ⟨?_, ?_, ?_, subtestQuestions_pairwise db subtestId⟩
  · intro hopen
    refine ⟨by simp [getQuestionsBySubtest, hs, ht, hopen], ?_⟩
    intro q hq
    rcases List.mem_map.mp hq with ⟨q0, _, rfl⟩
    exact ⟨rfl, rfl, rfl⟩
  · intro hclosed
    have hno : ¬ toend > now := by omega
    simp [getQuestionsBySubtest, hs, ht, hno, hclosed]
  · intro q
    exact ⟨rfl, rfl, rfl, rfl, rfl, rfl, rfl⟩

/-- Two question rows of subtest 1, listed out of index order in the
store, the second one an essay question. -/
def wQuestionA : Question :=
  { id := 11, subtestId := 1, index := 2, content := "Q2",
    imageUrl := none, qtype := "essay", score := 5,
    explanation := some "capital city", correctAnswerChoice := none,
    answers := [{ id := 21, questionId := 11, index := 0,
                  content := " Jakarta " }] }

/-- The multiple-choice question of subtest 1 with index 1. -/
def wQuestionB : Question :=
  { id := 10, subtestId := 1, index := 1, content := "Q1",
    imageUrl := none, qtype := "mulChoice", score := 10,
    explanation := none, correctAnswerChoice := some 1,
    answers := [{ id := 22, questionId := 10, index := 0, content := "A" },
                { id := 23, questionId := 10, index := 1,
                  content := "B" }] }

/-- A store with the package, the session and the two questions above. -/
def wQuestionsDB : DB :=
  { packages := [wPackage], subtests := [], questions := [wQuestionA,
      wQuestionB],
    quizSessions := [wSession], userAnswers := [], announcements := [] }

/-- C2 witness: on the concrete store, the open-window call at instant 10
returns the redacted rows in index order and the closed-window call at
instant 60 returns the stored rows in index order. -/
theorem c2_questions_witness :
    findFirstSession wQuestionsDB 1 (effectiveUserId "user" none "u1") =
      some wSession ∧
    sessionTOend wQuestionsDB wSession = some 50 ∧
    (50 : Int) > 10 ∧ (50 : Int) < 60 ∧
    getQuestionsBySubtest wQuestionsDB 1 none "u1" "user" 10 =
      some (.questions [deliverRedacted wQuestionB,
        deliverRedacted wQuestionA]) ∧
    getQuestionsBySubtest wQuestionsDB 1 none "u1" "user" 60 =
      some (.questions [deliverFull wQuestionB, deliverFull wQuestionA]) := by
  have hopen := c2_questions_redaction wQuestionsDB 1 none "u1" "user" 10
    wSession 50 (by decide) (by decide)
  have hclosed := c2_questions_redaction wQuestionsDB 1 none "u1" "user" 60
    wSession 50 (by decide) (by decide)
  refine ⟨by decide, by decide, by decide, by decide, ?_, ?_⟩
  · have h := (hopen.1 (by decide)).1
    rw [h]
    rfl
  · have h := hclosed.2.1 (by decide)
    rw [h]
    rfl

/-- C1: for a subtest with a session whose package window has closed,
the score is the sum over the stored answers of the per-answer
contribution (the score of the question on a strict match of the answer
choice with the non-null correct choice; else, for an essay answer, the
score of the question when the trimmed lowercased essay text equals the
trimmed lowercased content of the first listed answer choice; else 0),
the subtest appears with that score in the result, the package totalScore
is the sum of the scores of the scored subtests, and the essay
normalisation makes the strings Paris-with-spaces and paris equal. -/
theorem c1_package_scoring (pd : PackageData) (now : Int)
    (st : FetchedSubtest) (qs : FetchedSession)
    (hmem : st ∈ pd.subtests) (hqs : st.quizSession.head? = some qs)
    (hclosed : ¬ qs.TOend > now) :
    scoreSubtest now st =
      { subtest := st, quizSession := some qs.endTime,
        score := some ((qs.userAnswers.map answerScore).sum) } ∧
    scoreSubtest now st ∈ (scorePackageData pd now).subtests ∧
    (scorePackageData pd now).totalScore =
      (pd.subtests.map
        (fun s2 => ((scoreSubtest now s2).score).getD 0)).sum ∧
    (∀ a : FetchedUserAnswer,
      answerScore a =
        match a.question.correctAnswerChoice, a.essayAnswer with
        | some c, _ =>
          if a.answerChoice = some c then a.question.score else 0
        | none, some e =>
          if (a.question.answers.head?).map
              (fun f => essayNorm f.content) = some (essayNorm e) then
            a.question.score
          else 0
        | none, none => 0) ∧
    essayNorm " Paris " = essayNorm "paris" := by
  refine ⟨?_, ?_, ?_, ?_, by decide⟩
  · simp [scoreSubtest, hqs, hclosed, subtestScore_eq_sum]
  · simp only [scorePackageData]
    exact List.mem_map_of_mem (scoreSubtest now) hmem
  · simp [scorePackageData, List.map_map]
    rfl
  · intro a
    rcases hc : a.question.correctAnswerChoice with _ | c
    · rcases he : a.essayAnswer with _ | e
      · simp [answerScore, hc, he]
      · rcases hh : a.question.answers.head? with _ | first
        · simp [answerScore, hc, he, hh]
        · simp only [answerScore, hc, he, hh, Option.map_some]
          by_cases heq : essayNorm e = essayNorm first.content
          · simp [heq]
          · rw [if_neg heq, if_neg]
            intro hsome
            exact heq (by injection hsome with h2; exact h2.symm)
    · simp [answerScore, hc]

/-- The essay question of the end-to-end scenario of the spec, fetched
shape. -/
def wEssayFQ : FetchedQuestion :=
  { correctAnswerChoice := none, score := 5,
    answers := [{ content := " Jakarta " }] }

/-- The multiple-choice question of the scenario, fetched shape. -/
def wChoiceFQ : FetchedQuestion :=
  { correctAnswerChoice := some 1, score := 10,
    answers := [{ content := "A" }, { content := "B" }] }

/-- The two stored answers of the scenario: the right choice and the essay
text jakarta in lowercase. -/
def wFetchedAnswers : List FetchedUserAnswer :=
  [{ question := wChoiceFQ, answerChoice := some 1, essayAnswer := none },
   { question := wEssayFQ, answerChoice := none,
     essayAnswer := some "jakarta" }]

/-- The fetched session of the scenario, window closing at 100. -/
def wFetchedSession : FetchedSession :=
  { endTime := 90, TOend := 100, userAnswers := wFetchedAnswers }

/-- The fetched subtest of the scenario. -/
def wFetchedSubtest : FetchedSubtest :=
  { id := 1, packageId := 1, stype := "PU", duration := 30,
    quizSession := [wFetchedSession] }

/-- The fetched package of the scenario. -/
def wPackageData : PackageData :=
  { name := "TO-1", ptype := "tryout", TOstart := 0, TOend := 100,
    subtests := [wFetchedSubtest] }

/-- C1 witness: at instant 200 the window is closed, the subtest scores
10 plus 5 and the package totalScore is 15. -/
theorem c1_package_scoring_witness :
    wFetchedSubtest ∈ wPackageData.subtests ∧
    wFetchedSubtest.quizSession.head? = some wFetchedSession ∧
    ¬ wFetchedSession.TOend > 200 ∧
    scoreSubtest 200 wFetchedSubtest =
      { subtest := wFetchedSubtest, quizSession := some 90,
        score := some 15 } ∧
    (scorePackageData wPackageData 200).totalScore = 15 := by
  have h := c1_package_scoring wPackageData 200 wFetchedSubtest
    wFetchedSession (by decide) (by decide) (by decide)
  refine ⟨by decide, by decide, by decide, ?_, ?_⟩
  · rw [h.1]
    decide
  · rw [h.2.2.1]
    decide

/-- C10: a stored answer whose question has a null correctAnswerChoice, a
non-null essayAnswer and an empty answer-choice list scores 0 through the
optional access to the first choice, and removing it from a session leaves
the subtest score unchanged, so it contributes exactly 0. -/
theorem c10_degenerate_essay (a : FetchedUserAnswer) (e : String)
    (hcorr : a.question.correctAnswerChoice = none)
    (hessay : a.essayAnswer = some e)
    (hanswers : a.question.answers = []) :
    answerScore a = 0 ∧
    ∀ pre post : List FetchedUserAnswer,
      subtestScore (pre ++ a :: post) = subtestScore (pre ++ post) := by
  have h0 : answerScore a = 0 := by
    simp [answerScore, hcorr, hessay, hanswers]
  refine ⟨h0, ?_⟩
  intro pre post
  simp [subtestScore_eq_sum, h0]

/-- A degenerate stored answer: essay answer present, no answer choices
listed on its question. -/
def wDegenerateAnswer : FetchedUserAnswer :=
  { question := { correctAnswerChoice := none, score := 7, answers := [] },
    answerChoice := none, essayAnswer := some "paris" }

/-- C10 witness: the degenerate answer scores 0 and adding it to the
scenario answers leaves the subtest score at 15. -/
theorem c10_degenerate_essay_witness :
    wDegenerateAnswer.question.correctAnswerChoice = none ∧
    wDegenerateAnswer.essayAnswer = some "paris" ∧
    wDegenerateAnswer.question.answers = [] ∧
    answerScore wDegenerateAnswer = 0 ∧
    subtestScore (wFetchedAnswers ++ [wDegenerateAnswer]) =
      subtestScore wFetchedAnswers := by
  have h := c10_degenerate_essay wDegenerateAnswer "paris" (by decide)
    (by decide) (by decide)
  refine ⟨by decide, by decide, by decide, h.1, ?_⟩
  have h2 := h.2 wFetchedAnswers []
  simpa using h2

theorem keyMatch_update (u : String) (s q : Nat) (r : UserAnswer)
    (ac : Option Nat) (ea : Option String) :
    keyMatch u s q { r with answerChoice := ac, essayAnswer := ea } =
      keyMatch u s q r := rfl

theorem guard_false_of_valid (ac : Option Nat) (ea : Option String)
    (hvalid : ac.isSome ∨ ea.isSome) :
    (ac.isNone && ea.isNone) = false := by
  rcases hvalid with h | h <;> cases ac <;> cases ea <;> simp_all

theorem saveAnswer_existing (db : DB) (answerChoice : Option Nat)
    (essayAnswer : Option String) (questionId : Nat) (userId : String)
    (packageId quizSessionId : Nat) (r0 : UserAnswer)
    (hvalid : answerChoice.isSome ∨ essayAnswer.isSome)
    (hrow : rowsForKey db userId quizSessionId questionId = [r0]) :
    saveAnswer db answerChoice essayAnswer questionId userId packageId
        quizSessionId =
      .ok ({ db with userAnswers := db.userAnswers.map (fun r =>
              if keyMatch userId quizSessionId questionId r then
                { r with answerChoice := answerChoice,
                         essayAnswer := essayAnswer }
              else r) },
           { r0 with answerChoice := answerChoice,
                     essayAnswer := essayAnswer }) ∧
    rowsForKey { db with userAnswers := db.userAnswers.map (fun r =>
        if keyMatch userId quizSessionId questionId r then
          { r with answerChoice := answerChoice,
                   essayAnswer := essayAnswer }
        else r) } userId quizSessionId questionId =
      [{ r0 with answerChoice := answerChoice,
                 essayAnswer := essayAnswer }] := by
  have hguard := guard_false_of_valid answerChoice essayAnswer hvalid
  have hfilter : db.userAnswers.filter
      (keyMatch userId quizSessionId questionId) = [r0] := hrow
  have hfind : db.userAnswers.find?
      (keyMatch userId quizSessionId questionId) = some r0 := by
    rw [find?_eq_head?_filter, hfilter]
    rfl
  have hg : ∀ r, keyMatch userId quizSessionId questionId r = true →
      keyMatch userId quizSessionId questionId
        ({ r with answerChoice := answerChoice,
                  essayAnswer := essayAnswer }) = true := by
    intro r h
    rw [keyMatch_update]
    exact h
  constructor
  · simp [saveAnswer, hguard, hfind]
  · show (db.userAnswers.map _).filter _ = _
    rw [filter_map_update _ _ hg, hfilter]
    rfl

theorem saveAnswer_missing (db : DB) (answerChoice : Option Nat)
    (essayAnswer : Option String) (questionId : Nat) (userId : String)
    (packageId quizSessionId : Nat)
    (hvalid : answerChoice.isSome ∨ essayAnswer.isSome)
    (hrow : rowsForKey db userId quizSessionId questionId = []) :
    saveAnswer db answerChoice essayAnswer questionId userId packageId
        quizSessionId =
      .ok ({ db with userAnswers := db.userAnswers ++
              [{ userId := userId, packageId := packageId,
                 quizSessionId := quizSessionId, questionId := questionId,
                 answerChoice := answerChoice,
                 essayAnswer := essayAnswer }] },
           { userId := userId, packageId := packageId,
             quizSessionId := quizSessionId, questionId := questionId,
             answerChoice := answerChoice, essayAnswer := essayAnswer }) ∧
    rowsForKey { db with userAnswers := db.userAnswers ++
        [{ userId := userId, packageId := packageId,
           quizSessionId := quizSessionId, questionId := questionId,
           answerChoice := answerChoice, essayAnswer := essayAnswer }] }
        userId quizSessionId questionId =
      [{ userId := userId, packageId := packageId,
         quizSessionId := quizSessionId, questionId := questionId,
         answerChoice := answerChoice, essayAnswer := essayAnswer }] := by
  have hguard := guard_false_of_valid answerChoice essayAnswer hvalid
  have hfilter : db.userAnswers.filter
      (keyMatch userId quizSessionId questionId) = [] := hrow
  have hfind : db.userAnswers.find?
      (keyMatch userId quizSessionId questionId) = none := by
    rw [find?_eq_head?_filter, hfilter]
    rfl
  constructor
  · simp [saveAnswer, hguard, hfind]
  · show (db.userAnswers ++ [_]).filter _ = _
    rw [List.filter_append, hfilter]
    simp [keyMatch]

/-- C9: when the upsert of saveAnswer hits an existing row for the
composite key, only answerChoice and essayAnswer of that row change: the
key fields and the stored packageId keep the values of the original
insert even when the call supplies a different packageId, and every row
outside the key is untouched. -/
theorem c9_saveAnswer_frame (db : DB) (answerChoice : Option Nat)
    (essayAnswer : Option String) (questionId : Nat) (userId : String)
    (packageId quizSessionId : Nat) (r0 : UserAnswer)
    (hvalid : answerChoice.isSome ∨ essayAnswer.isSome)
    (hrow : rowsForKey db userId quizSessionId questionId = [r0]) :
    ∃ db1,
      saveAnswer db answerChoice essayAnswer questionId userId packageId
          quizSessionId =
        .ok (db1, { r0 with answerChoice := answerChoice,
                            essayAnswer := essayAnswer }) ∧
      rowsForKey db1 userId quizSessionId questionId =
        [{ r0 with answerChoice := answerChoice,
                   essayAnswer := essayAnswer }] ∧
      ({ r0 with answerChoice := answerChoice,
                 essayAnswer := essayAnswer } : UserAnswer).packageId =
        r0.packageId ∧
      ({ r0 with answerChoice := answerChoice,
                 essayAnswer := essayAnswer } : UserAnswer).userId =
        r0.userId ∧
      ({ r0 with answerChoice := answerChoice,
                 essayAnswer := essayAnswer } : UserAnswer).quizSessionId =
        r0.quizSessionId ∧
      ({ r0 with answerChoice := answerChoice,
                 essayAnswer := essayAnswer } : UserAnswer).questionId =
        r0.questionId ∧
      db1.userAnswers.filter
          (fun r => !(keyMatch userId quizSessionId questionId r)) =
        db.userAnswers.filter
          (fun r => !(keyMatch userId quizSessionId questionId r)) ∧
      db1.userAnswers.length = db.userAnswers.length := by
  have hguard := guard_false_of_valid answerChoice essayAnswer hvalid
  have hfilter : db.userAnswers.filter
      (keyMatch userId quizSessionId questionId) = [r0] := hrow
  have hfind : db.userAnswers.find?
      (keyMatch userId quizSessionId questionId) = some r0 := by
    rw [find?_eq_head?_filter, hfilter]
    rfl
  have hg : ∀ r, keyMatch userId quizSessionId questionId r = true →
      keyMatch userId quizSessionId questionId
        ({ r with answerChoice := answerChoice,
                  essayAnswer := essayAnswer }) = true := by
    intro r h
    rw [keyMatch_update]
    exact h
  refine ⟨{ db with userAnswers := db.userAnswers.map (fun r =>
      if keyMatch userId quizSessionId questionId r then
        { r with answerChoice := answerChoice, essayAnswer := essayAnswer }
      else r) }, ?_, ?_, rfl, rfl, rfl, rfl, ?_, ?_⟩
  · simp [saveAnswer, hguard, hfind]
  · show (db.userAnswers.map _).filter _ = _
    rw [filter_map_update _ _ hg, hfilter]
    rfl
  · show (db.userAnswers.map _).filter _ = _
    rw [filter_not_map_update _ _ hg]
  · exact List.length_map _ _

/-- A stored answer row of user u1 in session 1 for question 10, created
with packageId 1. -/
def wStoredAnswer : UserAnswer :=
  { userId := "u1", packageId := 1, quizSessionId := 1, questionId := 10,
    answerChoice := some 0, essayAnswer := none }

/-- A store holding the single stored answer row above. -/
def wAnswerDB : DB :=
  { packages := [wPackage], subtests := [], questions := [],
    quizSessions := [wSession], userAnswers := [wStoredAnswer],
    announcements := [] }

/-- C9 witness: resubmitting for the same key with packageId 99 keeps the
stored packageId 1 in the single row of the key and only changes the
answer fields. -/
theorem c9_saveAnswer_frame_witness :
    ((some 2 : Option Nat).isSome ∨ (none : Option String).isSome) ∧
    rowsForKey wAnswerDB "u1" 1 10 = [wStoredAnswer] ∧
    (rowsForKey (runSaveAnswer wAnswerDB (some 2) none 10 "u1" 99 1)
        "u1" 1 10).map UserAnswer.packageId = [1] ∧
    (rowsForKey (runSaveAnswer wAnswerDB (some 2) none 10 "u1" 99 1)
        "u1" 1 10).map UserAnswer.answerChoice = [some 2] := by
  obtain ⟨db1, heq, hrows, -, -, -, -, -, -⟩ :=
    c9_saveAnswer_frame wAnswerDB (some 2) none 10 "u1" 99 1
      wStoredAnswer (Or.inl rfl) (by decide)
  have hrun : runSaveAnswer wAnswerDB (some 2) none 10 "u1" 99 1 = db1 := by
    simp only [runSaveAnswer, heq]
  refine ⟨Or.inl rfl, by decide, ?_, ?_⟩
  · rw [hrun, hrows]
    rfl
  · rw [hrun, hrows]
    rfl

/-- C4: saveAnswer is idempotent under identical repeated input: on a
store whose composite key holds at most one row, two calls with the same
(userId, quizSessionId, questionId, answerChoice, essayAnswer) both
succeed, the second adds no row, and exactly one row remains for the key,
holding the submitted values. -/
theorem c4_saveAnswer_idempotent (db : DB) (answerChoice : Option Nat)
    (essayAnswer : Option String) (questionId : Nat) (userId : String)
    (packageId quizSessionId : Nat)
    (hvalid : answerChoice.isSome ∨ essayAnswer.isSome)
    (huniq : (rowsForKey db userId quizSessionId questionId).length ≤ 1) :
    ∃ db1 r1 db2 r2,
      saveAnswer db answerChoice essayAnswer questionId userId packageId
        quizSessionId = .ok (db1, r1) ∧
      saveAnswer db1 answerChoice essayAnswer questionId userId packageId
        quizSessionId = .ok (db2, r2) ∧
      db2.userAnswers.length = db1.userAnswers.length ∧
      ∃ r : UserAnswer,
        rowsForKey db2 userId quizSessionId questionId = [r] ∧
        r1 = r ∧ r2 = r ∧
        r.answerChoice = answerChoice ∧ r.essayAnswer = essayAnswer ∧
        r.userId = userId ∧ r.quizSessionId = quizSessionId ∧
        r.questionId = questionId := by
  cases hfk : rowsForKey db userId quizSessionId questionId with
  | nil =>
    obtain ⟨h1, hrows1⟩ := saveAnswer_missing db answerChoice essayAnswer
      questionId userId packageId quizSessionId hvalid hfk
    obtain ⟨h2, hrows2⟩ := saveAnswer_existing _ answerChoice essayAnswer
      questionId userId packageId quizSessionId _ hvalid hrows1
    refine ⟨_, _, _, _, h1, h2, List.length_map _ _,
      { userId := userId, packageId := packageId,
        quizSessionId := quizSessionId, questionId := questionId,
        answerChoice := answerChoice, essayAnswer := essayAnswer },
      ?_, rfl, rfl, rfl, rfl, rfl, rfl, rfl⟩
    rw [hrows2]
  | cons r0 tail =>
    cases tail with
    | nil =>
      have hkey : keyMatch userId quizSessionId questionId r0 = true := by
        have hmem : r0 ∈ rowsForKey db userId quizSessionId questionId := by
          rw [hfk]
          exact List.mem_singleton.mpr rfl
        exact (List.mem_filter.mp hmem).2
      have hfields : r0.userId = userId ∧ r0.quizSessionId = quizSessionId ∧
          r0.questionId = questionId := by
        simp only [keyMatch, Bool.and_eq_true, beq_iff_eq] at hkey
        exact ⟨hkey.1.1, hkey.1.2, hkey.2⟩
      obtain ⟨h1, hrows1⟩ := saveAnswer_existing db answerChoice essayAnswer
        questionId userId packageId quizSessionId r0 hvalid hfk
      obtain ⟨h2, hrows2⟩ := saveAnswer_existing _ answerChoice essayAnswer
        questionId userId packageId quizSessionId _ hvalid hrows1
      refine ⟨_, _, _, _, h1, h2, List.length_map _ _,
        { r0 with answerChoice := answerChoice,
                  essayAnswer := essayAnswer },
        ?_, rfl, rfl, rfl, rfl, hfields.1, hfields.2.1, hfields.2.2⟩
      rw [hrows2]
    | cons b bs =>
      exfalso
      rw [hfk] at huniq
      simp at huniq

/-- C4 witness: submitting answer choice 3 twice for a fresh key of the
concrete store leaves exactly one row for the key with the submitted
values, and the second call adds no row. -/
theorem c4_saveAnswer_idempotent_witness :
    ((some 3 : Option Nat).isSome ∨ (none : Option String).isSome) ∧
    (rowsForKey wDB "u1" 1 10).length ≤ 1 ∧
    (rowsForKey (runSaveAnswer (runSaveAnswer wDB (some 3) none 10 "u1" 1 1)
        (some 3) none 10 "u1" 1 1) "u1" 1 10).map
      UserAnswer.answerChoice = [some 3] ∧
    (runSaveAnswer (runSaveAnswer wDB (some 3) none 10 "u1" 1 1)
        (some 3) none 10 "u1" 1 1).userAnswers.length =
      (runSaveAnswer wDB (some 3) none 10 "u1" 1 1).userAnswers.length := by
  obtain ⟨db1, r1, db2, r2, h1, h2, hlen, r, hrows, -, -, hac, -, -, -, -⟩ :=
    c4_saveAnswer_idempotent wDB (some 3) none 10 "u1" 1 1
      (Or.inl rfl) (by decide)
  have hrun1 : runSaveAnswer wDB (some 3) none 10 "u1" 1 1 = db1 := by
    simp only [runSaveAnswer, h1]
  have hrun2 : runSaveAnswer db1 (some 3) none 10 "u1" 1 1 = db2 := by
    simp only [runSaveAnswer, h2]
  refine ⟨Or.inl rfl, by decide, ?_, ?_⟩
  · rw [hrun1, hrun2, hrows]
    simp [hac]
  · rw [hrun1, hrun2, hlen]

/-- A store whose single announcement row carries id 2 rather than the
singleton id 1. -/
def badAnnouncementDB : DB :=
  { packages := [], subtests := [], questions := [], quizSessions := [],
    userAnswers := [],
    announcements := [{ id := 2, title := none, content := none,
                        url := none }] }

/-- C8 counterexample: from a store state whose only announcement row has
id 2, a single upsertAnnouncement call finds no row with id 1, creates
one, and two announcement rows exist, so it is not true that at most one
row ever exists starting from any store state. -/
theorem c8_counterexample :
    badAnnouncementDB.announcements.length = 1 ∧
    (upsertAnnouncement badAnnouncementDB (some "t") (some "c")
        none).announcements.length = 2 := by
  exact ⟨rfl, rfl⟩

/-- C8 amended: starting from a store whose announcement rows all carry
id 1 and number at most one — in particular the empty store — every
sequence of upsertAnnouncement calls leaves at most one announcement row,
with id 1: each call updates the id-1 row in place or creates it, and
repeated calls never multiply the rows. -/
theorem c8_announcement_singleton (db : DB)
    (calls : List (Option String × Option String × Option String))
    (hids : ∀ a ∈ db.announcements, a.id = 1)
    (hlen : db.announcements.length ≤ 1) :
    (applyAnnouncementCalls db calls).announcements.length ≤ 1 ∧
    ∀ a ∈ (applyAnnouncementCalls db calls).announcements, a.id = 1 := by
  induction calls generalizing db with
  | nil => exact ⟨hlen, hids⟩
  | cons c cs ih =>
    have h := upsertAnnouncement_preserves db c.1 c.2.1 c.2.2 hids hlen
    have hstep : applyAnnouncementCalls db (c :: cs) =
        applyAnnouncementCalls (upsertAnnouncement db c.1 c.2.1 c.2.2) cs :=
      rfl
    rw [hstep]
    exact ih _ h.1 h.2

/-- C8 amended witness: two upsert calls on the empty store leave exactly
one announcement row. -/
theorem c8_announcement_singleton_witness :
    (∀ a ∈ emptyDB.announcements, a.id = 1) ∧
    emptyDB.announcements.length ≤ 1 ∧
    (applyAnnouncementCalls emptyDB
      [(some "t1", some "c1", none),
       (some "t2", some "c2", some "u")]).announcements.length ≤ 1 := by
  have h := c8_announcement_singleton emptyDB
    [(some "t1", some "c1", none), (some "t2", some "c2", some "u")]
    (by decide) (by decide)
  exact ⟨by decide, by decide, h.1⟩

end Quiz
